import Mathlib

/-!
Shallow embedding of xen/arch/x86/hvm/svm/vpmu.c (AMD SVM vPMU backend).

The per-vcpu `struct vpmu_struct` state (flag bits, the dynamically sized
`xen_pmu_amd_ctxt` shadow arrays, and the `priv_context` pointer used as the
MSR-bitmap on/off sentinel) is modelled as the structure `VPMU`.  Hardware
MSRs are modelled as a function `Nat → Nat` together with an explicit log of
the `wrmsrl` calls an operation performs; `svm_intercept_msr` calls are
logged the same way.  Each C entry point becomes a pure Lean function from
the pre-state (plus its inputs) to a result record carrying the post-state,
the return value and the logs.
-/

set_option maxHeartbeats 1000000

namespace SvmVpmu

/-- Register classification returned by `get_pmu_reg_type` (`MSR_TYPE_CTRL`
and `MSR_TYPE_COUNTER`; the C function returns -1 for unsupported registers,
modelled as `none`). -/
inductive MSRType where
  | ctrl
  | counter
deriving DecidableEq, Repr

/-- Intercept modes passed to `svm_intercept_msr`: full read/write trap
(`MSR_INTERCEPT_RW`), write-only trap (`MSR_INTERCEPT_WRITE`), and
pass-through (`MSR_INTERCEPT_NONE`). -/
inductive Icpt where
  | rw
  | wo
  | off
deriving DecidableEq, Repr

/-- Modelled from the spec: the numeric AMD MSR addresses come from the
architectural `msr-index.h` header, which is outside the provided source
tree; the values below are the standard architectural ones, consistent with
the range tests in `get_pmu_reg_type` and `context_update`. -/
def MSR_K7_EVNTSEL0 : Nat := 0xc0010000

def MSR_K7_EVNTSEL1 : Nat := 0xc0010001

def MSR_K7_EVNTSEL2 : Nat := 0xc0010002

def MSR_K7_EVNTSEL3 : Nat := 0xc0010003

def MSR_K7_PERFCTR0 : Nat := 0xc0010004

def MSR_K7_PERFCTR1 : Nat := 0xc0010005

def MSR_K7_PERFCTR2 : Nat := 0xc0010006

def MSR_K7_PERFCTR3 : Nat := 0xc0010007

def MSR_AMD_FAM15H_EVNTSEL0 : Nat := 0xc0010200

def MSR_AMD_FAM15H_PERFCTR0 : Nat := 0xc0010201

def MSR_AMD_FAM15H_EVNTSEL1 : Nat := 0xc0010202

def MSR_AMD_FAM15H_PERFCTR1 : Nat := 0xc0010203

def MSR_AMD_FAM15H_EVNTSEL2 : Nat := 0xc0010204

def MSR_AMD_FAM15H_PERFCTR2 : Nat := 0xc0010205

def MSR_AMD_FAM15H_EVNTSEL3 : Nat := 0xc0010206

def MSR_AMD_FAM15H_PERFCTR3 : Nat := 0xc0010207

def MSR_AMD_FAM15H_EVNTSEL4 : Nat := 0xc0010208

def MSR_AMD_FAM15H_PERFCTR4 : Nat := 0xc0010209

def MSR_AMD_FAM15H_EVNTSEL5 : Nat := 0xc001020a

def MSR_AMD_FAM15H_PERFCTR5 : Nat := 0xc001020b

def MSR_F10H_EVNTSEL_GO_SHIFT : Nat := 40

def MSR_F10H_EVNTSEL_EN_SHIFT : Nat := 22

/-- `is_guest_mode(msr)`: tests the guest-only ("GO") mode bit. -/
def is_guest_mode (v : Nat) : Bool := v.testBit MSR_F10H_EVNTSEL_GO_SHIFT

/-- `is_pmu_enabled(msr)`: tests the counter-enable bit. -/
def is_pmu_enabled (v : Nat) : Bool := v.testBit MSR_F10H_EVNTSEL_EN_SHIFT

/-- `set_guest_mode(msr)`: ors in the guest-only mode bit. -/
def set_guest_mode (v : Nat) : Nat := v ||| 2 ^ MSR_F10H_EVNTSEL_GO_SHIFT

/-- `get_pmu_reg_type`: classifies an MSR address as control or counter;
unsupported addresses yield `none` (the C code returns -1). -/
def get_pmu_reg_type (addr : Nat) : Option MSRType :=
  if MSR_K7_EVNTSEL0 ≤ addr ∧ addr ≤ MSR_K7_EVNTSEL3 then some MSRType.ctrl
  else if MSR_K7_PERFCTR0 ≤ addr ∧ addr ≤ MSR_K7_PERFCTR3 then some MSRType.counter
  else if MSR_AMD_FAM15H_EVNTSEL0 ≤ addr ∧ addr ≤ MSR_AMD_FAM15H_PERFCTR5 then
    (if addr % 2 = 1 then some MSRType.counter else some MSRType.ctrl)
  else none

/-- `get_fam15h_addr`: maps a legacy K7 register address to the family-15h
extended-bank address with the same role and index; other addresses are
returned unchanged. -/
def get_fam15h_addr (addr : Nat) : Nat :=
  if addr = MSR_K7_PERFCTR0 then MSR_AMD_FAM15H_PERFCTR0
  else if addr = MSR_K7_PERFCTR1 then MSR_AMD_FAM15H_PERFCTR1
  else if addr = MSR_K7_PERFCTR2 then MSR_AMD_FAM15H_PERFCTR2
  else if addr = MSR_K7_PERFCTR3 then MSR_AMD_FAM15H_PERFCTR3
  else if addr = MSR_K7_EVNTSEL0 then MSR_AMD_FAM15H_EVNTSEL0
  else if addr = MSR_K7_EVNTSEL1 then MSR_AMD_FAM15H_EVNTSEL1
  else if addr = MSR_K7_EVNTSEL2 then MSR_AMD_FAM15H_EVNTSEL2
  else if addr = MSR_K7_EVNTSEL3 then MSR_AMD_FAM15H_EVNTSEL3
  else addr

/-- The boot-time register layout selection (the statics `counters`,
`ctrls`, `num_counters` = `counters.length`, and `k7_counters_mirrored`). -/
structure Layout where
  counters : List Nat
  ctrls : List Nat
  k7_counters_mirrored : Bool
deriving DecidableEq, Repr

def AMD_F10H_COUNTERS : List Nat :=
  [MSR_K7_PERFCTR0, MSR_K7_PERFCTR1, MSR_K7_PERFCTR2, MSR_K7_PERFCTR3]

def AMD_F10H_CTRLS : List Nat :=
  [MSR_K7_EVNTSEL0, MSR_K7_EVNTSEL1, MSR_K7_EVNTSEL2, MSR_K7_EVNTSEL3]

def AMD_F15H_COUNTERS : List Nat :=
  [MSR_AMD_FAM15H_PERFCTR0, MSR_AMD_FAM15H_PERFCTR1, MSR_AMD_FAM15H_PERFCTR2,
   MSR_AMD_FAM15H_PERFCTR3, MSR_AMD_FAM15H_PERFCTR4, MSR_AMD_FAM15H_PERFCTR5]

def AMD_F15H_CTRLS : List Nat :=
  [MSR_AMD_FAM15H_EVNTSEL0, MSR_AMD_FAM15H_EVNTSEL1, MSR_AMD_FAM15H_EVNTSEL2,
   MSR_AMD_FAM15H_EVNTSEL3, MSR_AMD_FAM15H_EVNTSEL4, MSR_AMD_FAM15H_EVNTSEL5]

/-- Layout installed by `amd_vpmu_init` for family 0x10/0x12/0x14/0x16. -/
def f10hLayout : Layout :=
  { counters := AMD_F10H_COUNTERS, ctrls := AMD_F10H_CTRLS, k7_counters_mirrored := false }

/-- Layout installed by `amd_vpmu_init` for family 0x15 (which also sets
`k7_counters_mirrored`). -/
def f15hLayout : Layout :=
  { counters := AMD_F15H_COUNTERS, ctrls := AMD_F15H_CTRLS, k7_counters_mirrored := true }

/-- The boot state of the layout statics: NULL pointers, zero counters. -/
def emptyLayout : Layout :=
  { counters := [], ctrls := [], k7_counters_mirrored := false }

/-- Per-vcpu vPMU state: the `VPMU_*` flag bits of `vpmu->flags`, the shadow
arrays of the `xen_pmu_amd_ctxt` context, the `priv_context` MSR-bitmap
sentinel (`is_msr_bitmap_on`), and a ghost bit recording whether this backend
currently holds the global PMU ownership token (set exactly when
`acquire_pmu_ownership(PMU_OWNER_HVM)` succeeded and not yet released). -/
structure VPMU where
  context_allocated : Bool
  context_loaded : Bool
  context_save : Bool
  running : Bool
  frozen : Bool
  bitmapOn : Bool
  counter_regs : List Nat
  ctrl_regs : List Nat
  tokenHeld : Bool
deriving DecidableEq, Repr

/-- Applies a log of `wrmsrl` writes (in order) to a hardware MSR file. -/
def applyWrites (hw : Nat → Nat) : List (Nat × Nat) → (Nat → Nat)
  | [] => hw
  | (a, d) :: rest => applyWrites (fun x => if x = a then d else hw x) rest

/-- The `svm_intercept_msr` calls issued by `amd_vpmu_set_msr_bitmap`:
each counter register goes to pass-through, each control register to
write-only trap. -/
def msrBitmapOnWrites (L : Layout) : List (Nat × Icpt) :=
  (L.counters.zip L.ctrls).flatMap (fun p => [(p.1, Icpt.off), (p.2, Icpt.wo)])

/-- The `svm_intercept_msr` calls issued by `amd_vpmu_unset_msr_bitmap`:
every register in the bank reverts to the full read/write trap. -/
def msrBitmapOffWrites (L : Layout) : List (Nat × Icpt) :=
  (L.counters.zip L.ctrls).flatMap (fun p => [(p.1, Icpt.rw), (p.2, Icpt.rw)])

/-- `amd_vpmu_set_msr_bitmap`: installs the fast-path intercept configuration
and turns the bitmap sentinel on (`msr_bitmap_on`). -/
def amd_vpmu_set_msr_bitmap (L : Layout) (s : VPMU) : VPMU × List (Nat × Icpt) :=
  ({ s with bitmapOn := true }, msrBitmapOnWrites L)

/-- `amd_vpmu_unset_msr_bitmap`: reverts every bank register to the full trap
and turns the bitmap sentinel off (`msr_bitmap_off`). -/
def amd_vpmu_unset_msr_bitmap (L : Layout) (s : VPMU) : VPMU × List (Nat × Icpt) :=
  ({ s with bitmapOn := false }, msrBitmapOffWrites L)

/-- The `wrmsrl` calls issued by `context_load`: for each bank index, the
counter register from the counter shadow then the control register from the
control shadow. -/
def context_load_writes (L : Layout) (s : VPMU) : List (Nat × Nat) :=
  ((L.counters.zip s.counter_regs).zip (L.ctrls.zip s.ctrl_regs)).flatMap
    (fun p => [p.1, p.2])

/-- First-match search of `context_update`: runs over the bank indices in
order, checking the control address then the counter address at each index;
returns `(true, i)` for a control hit and `(false, i)` for a counter hit. -/
def findSlot : List Nat → List Nat → Nat → Option (Bool × Nat)
  | e :: es, c :: cs, msr =>
    if msr = e then some (true, 0)
    else if msr = c then some (false, 0)
    else (findSlot es cs msr).map (fun p => (p.1, p.2 + 1))
  | _, _, _ => none

/-- `context_update`: redirects a legacy K7 address to the family-15h bank
when `k7_counters_mirrored` is set, then updates the first matching shadow
entry (control checked before counter at each index); no match leaves both
shadow arrays unchanged.  Takes and returns the two shadow arrays, the only
state it touches. -/
def context_update (L : Layout) (msr v : Nat) (cr er : List Nat) :
    List Nat × List Nat :=
  let m := if L.k7_counters_mirrored ∧ MSR_K7_EVNTSEL0 ≤ msr ∧ msr ≤ MSR_K7_PERFCTR3
           then get_fam15h_addr msr else msr
  match findSlot L.ctrls L.counters m with
  | some (true, i) => (cr, er.set i v)
  | some (false, i) => (cr.set i v, er)
  | none => (cr, er)

/-- Whether `get_pmu_reg_type` classifies the address as a control MSR. -/
def isCtrlMsr (msr : Nat) : Bool := get_pmu_reg_type msr = some MSRType.ctrl

/-- Step 1 of `amd_vpmu_do_wrmsr`: for an HVM vcpu writing a control
register whose guest-only bit is clear, force the guest-only mode bit into
the value. -/
def guest_mode_adjust (hvm : Bool) (msr v : Nat) : Nat :=
  if hvm = true ∧ get_pmu_reg_type msr = some MSRType.ctrl ∧ is_guest_mode v = false
  then set_guest_mode v else v

/-- Result of `amd_vpmu_do_wrmsr`: post-state, C return value, the `wrmsrl`
log, the `svm_intercept_msr` log, whether `acquire_pmu_ownership` succeeded
in this call, and whether `release_pmu_ownship` was called in this call. -/
structure WrmsrResult where
  st : VPMU
  ret : Nat
  hwWrites : List (Nat × Nat)
  icptWrites : List (Nat × Icpt)
  acquired : Bool
  released : Bool
deriving DecidableEq, Repr

/-- `amd_vpmu_do_wrmsr`.  `acqOk` is the result the external ownership
arbiter would give to `acquire_pmu_ownership(PMU_OWNER_HVM)` (modelled from
the spec, section 4.3: the arbiter is outside the provided source). -/
def amd_vpmu_do_wrmsr (L : Layout) (hvm : Bool) (s : VPMU) (msr v0 : Nat)
    (acqOk : Bool) : WrmsrResult :=
  let v := guest_mode_adjust hvm msr v0
  let ctrlW := isCtrlMsr msr
  let firstEnable := ctrlW && is_pmu_enabled v && !s.running
  if firstEnable && !acqOk then
    { st := s, ret := 1, hwWrites := [], icptWrites := [],
      acquired := false, released := false }
  else
    let s1 := if firstEnable then { s with running := true, tokenHeld := true } else s
    let doSet := firstEnable && hvm && s1.bitmapOn
    let s2 := if doSet then (amd_vpmu_set_msr_bitmap L s1).1 else s1
    let ic1 := if doSet then (amd_vpmu_set_msr_bitmap L s1).2 else []
    let stopping := ctrlW && !is_pmu_enabled v && s2.running
    let s3 := if stopping then { s2 with running := false } else s2
    let doUnset := stopping && hvm && s3.bitmapOn
    let s4 := if doUnset then (amd_vpmu_unset_msr_bitmap L s3).1 else s3
    let ic2 := if doUnset then (amd_vpmu_unset_msr_bitmap L s3).2 else []
    let s5 := if stopping then { s4 with tokenHeld := false } else s4
    let needLoad := !s5.context_loaded || s5.frozen
    let loadW := if needLoad then context_load_writes L s5 else []
    let s6 := if needLoad then { s5 with context_loaded := true, frozen := false } else s5
    let sh := context_update L msr v (s6.counter_regs, s6.ctrl_regs).1 (s6.counter_regs, s6.ctrl_regs).2
    { st := { s6 with counter_regs := sh.1, ctrl_regs := sh.2 },
      ret := 1, hwWrites := loadW ++ [(msr, v)], icptWrites := ic1 ++ ic2,
      acquired := firstEnable, released := stopping }

/-- Result of `amd_vpmu_do_rdmsr`: post-state, the value placed in
`*msr_content`, the `wrmsrl` log of any reload, and the C return value. -/
structure RdmsrResult where
  st : VPMU
  value : Nat
  hwWrites : List (Nat × Nat)
  ret : Nat
deriving Repr

/-- `amd_vpmu_do_rdmsr`: reloads the context if it is not loaded or is
frozen, then reads the requested MSR straight from hardware. -/
def amd_vpmu_do_rdmsr (L : Layout) (s : VPMU) (hw : Nat → Nat) (msr : Nat) :
    RdmsrResult :=
  let needLoad := !s.context_loaded || s.frozen
  let loadW := if needLoad then context_load_writes L s else []
  let s1 := if needLoad then { s with context_loaded := true, frozen := false } else s
  { st := s1, value := applyWrites hw loadW msr, hwWrites := loadW, ret := 1 }

/-- Result of `amd_vpmu_save`: post-state, C return value, `wrmsrl` log and
`svm_intercept_msr` log. -/
structure SaveResult where
  st : VPMU
  ret : Nat
  hwWrites : List (Nat × Nat)
  icptWrites : List (Nat × Icpt)
deriving Repr

/-- `amd_vpmu_save`: without `VPMU_CONTEXT_SAVE` it freezes (sets `FROZEN`,
zeroes every hardware control register, returns 0); with it, a never-loaded
context is a no-op returning 0, otherwise every counter's hardware value is
read back into the counter shadow, the MSR bitmap is unset when the guest is
not running and the bitmap is on, and 1 is returned. -/
def amd_vpmu_save (L : Layout) (hvm : Bool) (s : VPMU) (hw : Nat → Nat) :
    SaveResult :=
  if !s.context_save then
    { st := { s with frozen := true }, ret := 0,
      hwWrites := L.ctrls.map (fun a => (a, 0)), icptWrites := [] }
  else if !s.context_loaded then
    { st := s, ret := 0, hwWrites := [], icptWrites := [] }
  else
    let s1 := { s with counter_regs := L.counters.map hw }
    let doUnset := !s1.running && hvm && s1.bitmapOn
    { st := if doUnset then (amd_vpmu_unset_msr_bitmap L s1).1 else s1,
      ret := 1, hwWrites := [],
      icptWrites := if doUnset then (amd_vpmu_unset_msr_bitmap L s1).2 else [] }

/-- Result of `amd_vpmu_load`: post-state and `wrmsrl` log. -/
structure LoadResult where
  st : VPMU
  hwWrites : List (Nat × Nat)
deriving Repr

/-- `amd_vpmu_load`: clears `FROZEN`; if the context is already loaded only
the control registers are rewritten from shadow, otherwise `CONTEXT_LOADED`
is set and `context_load` pushes every counter and control register. -/
def amd_vpmu_load (L : Layout) (s : VPMU) : LoadResult :=
  let s0 := { s with frozen := false }
  if s0.context_loaded then
    { st := s0, hwWrites := L.ctrls.zip s0.ctrl_regs }
  else
    { st := { s0 with context_loaded := true }, hwWrites := context_load_writes L s0 }

/-- Result of `amd_vpmu_destroy`: post-state, `svm_intercept_msr` log, and
whether `release_pmu_ownship` was called. -/
structure DestroyResult where
  st : VPMU
  icptWrites : List (Nat × Icpt)
  released : Bool
deriving Repr

/-- `amd_vpmu_destroy`: unsets the MSR bitmap for an HVM vcpu with the
bitmap on, releases the ownership token if `RUNNING` is still set, and
clears all the `VPMU_*` flag bits (`vpmu_clear`). -/
def amd_vpmu_destroy (L : Layout) (hvm : Bool) (s : VPMU) : DestroyResult :=
  let doUnset := hvm && s.bitmapOn
  let s1 := if doUnset then (amd_vpmu_unset_msr_bitmap L s).1 else s
  let rel := s1.running
  let s2 := if rel then { s1 with tokenHeld := false } else s1
  { st := { s2 with context_allocated := false, context_loaded := false,
                    context_save := false, running := false, frozen := false },
    icptWrites := if doUnset then (amd_vpmu_unset_msr_bitmap L s).2 else [],
    released := rel }

/-- The context produced by a successful `svm_vpmu_initialise`: zeroed
shadow arrays (`xzalloc_bytes`), `VPMU_CONTEXT_ALLOCATED` set, every other
flag clear, `priv_context` NULL (bitmap off). -/
def initVPMU (L : Layout) : VPMU :=
  { context_allocated := true, context_loaded := false, context_save := false,
    running := false, frozen := false, bitmapOn := false,
    counter_regs := List.replicate L.counters.length 0,
    ctrl_regs := List.replicate L.counters.length 0, tokenHeld := false }

/-- `svm_vpmu_initialise`: returns the C return value and the context (if
any) installed on the vcpu.  `modeOff` is `vpmu_mode == XENPMU_MODE_OFF`
and `allocOk` the outcome of `xzalloc_bytes` (both external inputs). -/
def svm_vpmu_initialise (L : Layout) (modeOff : Bool) (allocOk : Bool) :
    Int × Option VPMU :=
  if modeOff then (0, none)
  else if L.counters = [] then (-22, none)
  else if !allocOk then (-12, none)
  else (0, some (initVPMU L))

/-- `amd_vpmu_init`: selects the layout from the processor family, then
rejects it (zeroing the layout statics) when the register bank does not fit
in the shared page.  `pmuDataSize` is `sizeof(struct xen_pmu_data)` and
`pageSize` is `PAGE_SIZE` (both defined outside the provided source). -/
def amd_vpmu_init (family pmuDataSize pageSize : Nat) : Int × Layout :=
  match (if family = 0x15 then
           some f15hLayout
         else if family = 0x10 ∨ family = 0x12 ∨ family = 0x14 ∨ family = 0x16 then
           some f10hLayout
         else none) with
  | none => (-22, emptyLayout)
  | some L =>
    if pmuDataSize + 2 * 8 * L.counters.length > pageSize then
      (-28, { counters := [], ctrls := [], k7_counters_mirrored := L.k7_counters_mirrored })
    else (0, L)

/-- One observable operation of the backend on a single vcpu's state. -/
inductive Step (L : Layout) (hvm : Bool) : VPMU → VPMU → Prop where
  | wrmsr (s : VPMU) (msr v : Nat) (acqOk : Bool) :
      Step L hvm s (amd_vpmu_do_wrmsr L hvm s msr v acqOk).st
  | rdmsr (s : VPMU) (hw : Nat → Nat) (msr : Nat) :
      Step L hvm s (amd_vpmu_do_rdmsr L s hw msr).st
  | save (s : VPMU) (hw : Nat → Nat) :
      Step L hvm s (amd_vpmu_save L hvm s hw).st
  | load (s : VPMU) :
      Step L hvm s (amd_vpmu_load L s).st
  | destroy (s : VPMU) :
      Step L hvm s (amd_vpmu_destroy L hvm s).st

/-- States reachable from a freshly initialised context. -/
def Reachable (L : Layout) (hvm : Bool) (s : VPMU) : Prop :=
  Relation.ReflTransGen (Step L hvm) (initVPMU L) s

/-- Forcing the guest-only bit (bit 40) does not change the enable bit
(bit 22), so the enable tests of `amd_vpmu_do_wrmsr` see the guest's bit. -/
theorem is_pmu_enabled_guest_mode_adjust (hvm : Bool) (msr v : Nat) :
    is_pmu_enabled (guest_mode_adjust hvm msr v) = is_pmu_enabled v := by
  unfold guest_mode_adjust set_guest_mode is_pmu_enabled
  split
  · rw [Nat.testBit_lor,
      Nat.testBit_two_pow_of_ne (by norm_num [MSR_F10H_EVNTSEL_GO_SHIFT, MSR_F10H_EVNTSEL_EN_SHIFT])]
    simp
  · rfl

/-- Oring a power of two into a value whose corresponding bit is already set
is the identity. -/
theorem lor_two_pow_self (v n : Nat) (h : v.testBit n = true) : v ||| 2 ^ n = v := by
  refine Nat.eq_of_testBit_eq (fun i => ?_)
  rw [Nat.testBit_lor, Nat.testBit_two_pow]
  by_cases hi : n = i
  · subst hi
    simp [h]
  · simp [hi]

/-- For an HVM vcpu writing a control register, the value pushed further is
exactly the guest value with the guest-only bit ored in. -/
theorem guest_mode_adjust_hvm_ctrl (msr v : Nat)
    (h : get_pmu_reg_type msr = some MSRType.ctrl) :
    guest_mode_adjust true msr v = v ||| 2 ^ MSR_F10H_EVNTSEL_GO_SHIFT := by
  unfold guest_mode_adjust set_guest_mode is_guest_mode
  by_cases hb : v.testBit MSR_F10H_EVNTSEL_GO_SHIFT
  · rw [if_neg (by simp [hb]), lor_two_pow_self v _ hb]
  · rw [if_pos ⟨rfl, h, by simp [hb]⟩]

/-- Claim C3: a trapped control-register write that sets the enable bit
while `RUNNING` is unset and whose `acquire_pmu_ownership` call is denied
returns the handled result 1 but changes nothing: no hardware write, no
intercept change, no shadow update, no flag change. -/
theorem claim_C3 (L : Layout) (hvm : Bool) (s : VPMU) (msr v : Nat)
    (hctrl : get_pmu_reg_type msr = some MSRType.ctrl)
    (hen : is_pmu_enabled v = true) (hrun : s.running = false) :
    (amd_vpmu_do_wrmsr L hvm s msr v false).ret = 1 ∧
    (amd_vpmu_do_wrmsr L hvm s msr v false).st = s ∧
    (amd_vpmu_do_wrmsr L hvm s msr v false).hwWrites = [] ∧
    (amd_vpmu_do_wrmsr L hvm s msr v false).icptWrites = [] ∧
    (amd_vpmu_do_wrmsr L hvm s msr v false).acquired = false ∧
    (amd_vpmu_do_wrmsr L hvm s msr v false).released = false := by
  unfold amd_vpmu_do_wrmsr
  simp [isCtrlMsr, hctrl, is_pmu_enabled_guest_mode_adjust, hen, hrun]

/-- Witness for claim C3 at a concrete input. -/
theorem claim_C3_witness :
    (amd_vpmu_do_wrmsr f10hLayout true (initVPMU f10hLayout)
        MSR_K7_EVNTSEL0 (2 ^ 22) false).ret = 1 ∧
    (amd_vpmu_do_wrmsr f10hLayout true (initVPMU f10hLayout)
        MSR_K7_EVNTSEL0 (2 ^ 22) false).st = initVPMU f10hLayout ∧
    (amd_vpmu_do_wrmsr f10hLayout true (initVPMU f10hLayout)
        MSR_K7_EVNTSEL0 (2 ^ 22) false).hwWrites = [] ∧
    (amd_vpmu_do_wrmsr f10hLayout true (initVPMU f10hLayout)
        MSR_K7_EVNTSEL0 (2 ^ 22) false).icptWrites = [] ∧
    (amd_vpmu_do_wrmsr f10hLayout true (initVPMU f10hLayout)
        MSR_K7_EVNTSEL0 (2 ^ 22) false).acquired = false ∧
    (amd_vpmu_do_wrmsr f10hLayout true (initVPMU f10hLayout)
        MSR_K7_EVNTSEL0 (2 ^ 22) false).released = false :=
  claim_C3 f10hLayout true (initVPMU f10hLayout) MSR_K7_EVNTSEL0 (2 ^ 22)
    (by decide) (by decide) (by decide)

/-- Claim C6: with `VPMU_CONTEXT_SAVE` unset, `amd_vpmu_save` sets `FROZEN`,
writes zero to every hardware control register of the bank, returns 0
(the Stopped result), and leaves everything else — shadow arrays,
`CONTEXT_LOADED`, `RUNNING`, the bitmap sentinel — unchanged. -/
theorem claim_C6 (L : Layout) (hvm : Bool) (s : VPMU) (hw : Nat → Nat)
    (h : s.context_save = false) :
    (amd_vpmu_save L hvm s hw).ret = 0 ∧
    (amd_vpmu_save L hvm s hw).st = { s with frozen := true } ∧
    (amd_vpmu_save L hvm s hw).hwWrites = L.ctrls.map (fun a => (a, 0)) ∧
    (amd_vpmu_save L hvm s hw).icptWrites = [] := by
  unfold amd_vpmu_save
  simp [h]

/-- Witness for claim C6: a context that was never loaded. -/
theorem claim_C6_witness :
    (amd_vpmu_save f10hLayout true (initVPMU f10hLayout) (fun _ => 0)).ret = 0 ∧
    (amd_vpmu_save f10hLayout true (initVPMU f10hLayout) (fun _ => 0)).st =
      { initVPMU f10hLayout with frozen := true } ∧
    (amd_vpmu_save f10hLayout true (initVPMU f10hLayout) (fun _ => 0)).hwWrites =
      f10hLayout.ctrls.map (fun a => (a, 0)) ∧
    (amd_vpmu_save f10hLayout true (initVPMU f10hLayout) (fun _ => 0)).icptWrites = [] :=
  claim_C6 f10hLayout true (initVPMU f10hLayout) (fun _ => 0) rfl

/-- Claim C9: `amd_vpmu_load` always clears `FROZEN`; when `CONTEXT_LOADED`
is already set it rewrites only the control registers from shadow (no
counter register is written), otherwise it sets `CONTEXT_LOADED` and writes
every counter and control register from shadow; consequently a second load
right after a first one takes the cheap control-only path. -/
theorem claim_C9 (L : Layout) (s : VPMU) :
    (amd_vpmu_load L s).st.frozen = false ∧
    (s.context_loaded = true →
      (amd_vpmu_load L s).st = { s with frozen := false } ∧
      (amd_vpmu_load L s).hwWrites = L.ctrls.zip s.ctrl_regs) ∧
    (s.context_loaded = false →
      (amd_vpmu_load L s).st = { s with frozen := false, context_loaded := true } ∧
      (amd_vpmu_load L s).hwWrites = context_load_writes L s) ∧
    (amd_vpmu_load L (amd_vpmu_load L s).st).hwWrites =
      L.ctrls.zip (amd_vpmu_load L s).st.ctrl_regs := by
  unfold amd_vpmu_load
  by_cases h : s.context_loaded = true <;>
    simp [h, context_load_writes]

/-- Witness for claim C9: a fresh (never loaded) context; the second load
after it is control-only. -/
theorem claim_C9_witness :
    (amd_vpmu_load f10hLayout (initVPMU f10hLayout)).st =
      { initVPMU f10hLayout with frozen := false, context_loaded := true } ∧
    (amd_vpmu_load f10hLayout (initVPMU f10hLayout)).hwWrites =
      context_load_writes f10hLayout (initVPMU f10hLayout) ∧
    (amd_vpmu_load f10hLayout (amd_vpmu_load f10hLayout (initVPMU f10hLayout)).st).hwWrites =
      f10hLayout.ctrls.zip (amd_vpmu_load f10hLayout (initVPMU f10hLayout)).st.ctrl_regs :=
  ⟨((claim_C9 f10hLayout (initVPMU f10hLayout)).2.2.1 rfl).1,
   ((claim_C9 f10hLayout (initVPMU f10hLayout)).2.2.1 rfl).2,
   (claim_C9 f10hLayout (initVPMU f10hLayout)).2.2.2⟩

/-- Claim C7: with `VPMU_CONTEXT_SAVE` set, `amd_vpmu_save` on a
never-loaded context is a no-op returning 0 (the code's nothing-to-do
result); on a loaded context it copies every counter's hardware value into
the counter shadow, leaves the control shadow alone, unsets the MSR bitmap
exactly when the guest is not `RUNNING` and the bitmap is on, and returns 1
(Saved).  The hypothesis `hB` records that the bitmap can only be on for an
HVM vcpu, which holds on every reachable state. -/
theorem claim_C7 (L : Layout) (hvm : Bool) (s : VPMU) (hw : Nat → Nat)
    (hS : s.context_save = true) (hB : s.bitmapOn = true → hvm = true) :
    (s.context_loaded = false →
      (amd_vpmu_save L hvm s hw).st = s ∧
      (amd_vpmu_save L hvm s hw).ret = 0 ∧
      (amd_vpmu_save L hvm s hw).hwWrites = [] ∧
      (amd_vpmu_save L hvm s hw).icptWrites = []) ∧
    (s.context_loaded = true →
      (amd_vpmu_save L hvm s hw).ret = 1 ∧
      (amd_vpmu_save L hvm s hw).st.counter_regs = L.counters.map hw ∧
      (amd_vpmu_save L hvm s hw).st.ctrl_regs = s.ctrl_regs ∧
      (amd_vpmu_save L hvm s hw).hwWrites = [] ∧
      (amd_vpmu_save L hvm s hw).st.bitmapOn = (s.bitmapOn && s.running) ∧
      (amd_vpmu_save L hvm s hw).icptWrites =
        (if s.running = false ∧ s.bitmapOn = true then msrBitmapOffWrites L else []) ∧
      (amd_vpmu_save L hvm s hw).st.running = s.running ∧
      (amd_vpmu_save L hvm s hw).st.context_loaded = true ∧
      (amd_vpmu_save L hvm s hw).st.frozen = s.frozen) := by
  unfold amd_vpmu_save
  constructor
  · intro h
    simp [hS, h]
  · intro h
    by_cases hr : s.running = true <;> by_cases hb : s.bitmapOn = true
    · simp [hS, h, hr, hb, amd_vpmu_unset_msr_bitmap]
    · simp [hS, h, hr, hb, amd_vpmu_unset_msr_bitmap]
    · simp [hS, h, hr, hb, hB hb, amd_vpmu_unset_msr_bitmap]
    · simp [hS, h, hr, hb, amd_vpmu_unset_msr_bitmap]

/-- Witness for claim C7: a loaded, stopped HVM context with the bitmap on;
the forced save copies counters back and reverts the fast path. -/
theorem claim_C7_witness :
    (amd_vpmu_save f10hLayout true
        { initVPMU f10hLayout with context_save := true, context_loaded := true,
                                   bitmapOn := true } (fun _ => 9)).ret = 1 ∧
    (amd_vpmu_save f10hLayout true
        { initVPMU f10hLayout with context_save := true, context_loaded := true,
                                   bitmapOn := true } (fun _ => 9)).st.counter_regs =
      f10hLayout.counters.map (fun _ => 9) ∧
    (amd_vpmu_save f10hLayout true
        { initVPMU f10hLayout with context_save := true, context_loaded := true,
                                   bitmapOn := true } (fun _ => 9)).st.ctrl_regs =
      ({ initVPMU f10hLayout with context_save := true, context_loaded := true,
                                  bitmapOn := true } : VPMU).ctrl_regs ∧
    (amd_vpmu_save f10hLayout true
        { initVPMU f10hLayout with context_save := true, context_loaded := true,
                                   bitmapOn := true } (fun _ => 9)).hwWrites = [] ∧
    (amd_vpmu_save f10hLayout true
        { initVPMU f10hLayout with context_save := true, context_loaded := true,
                                   bitmapOn := true } (fun _ => 9)).st.bitmapOn =
      (({ initVPMU f10hLayout with context_save := true, context_loaded := true,
                                   bitmapOn := true } : VPMU).bitmapOn &&
       ({ initVPMU f10hLayout with context_save := true, context_loaded := true,
                                   bitmapOn := true } : VPMU).running) ∧
    (amd_vpmu_save f10hLayout true
        { initVPMU f10hLayout with context_save := true, context_loaded := true,
                                   bitmapOn := true } (fun _ => 9)).icptWrites =
      (if ({ initVPMU f10hLayout with context_save := true, context_loaded := true,
                                      bitmapOn := true } : VPMU).running = false ∧
          ({ initVPMU f10hLayout with context_save := true, context_loaded := true,
                                      bitmapOn := true } : VPMU).bitmapOn = true
       then msrBitmapOffWrites f10hLayout else []) ∧
    (amd_vpmu_save f10hLayout true
        { initVPMU f10hLayout with context_save := true, context_loaded := true,
                                   bitmapOn := true } (fun _ => 9)).st.running =
      ({ initVPMU f10hLayout with context_save := true, context_loaded := true,
                                  bitmapOn := true } : VPMU).running ∧
    (amd_vpmu_save f10hLayout true
        { initVPMU f10hLayout with context_save := true, context_loaded := true,
                                   bitmapOn := true } (fun _ => 9)).st.context_loaded = true ∧
    (amd_vpmu_save f10hLayout true
        { initVPMU f10hLayout with context_save := true, context_loaded := true,
                                   bitmapOn := true } (fun _ => 9)).st.frozen =
      ({ initVPMU f10hLayout with context_save := true, context_loaded := true,
                                  bitmapOn := true } : VPMU).frozen :=
  (claim_C7 f10hLayout true
    { initVPMU f10hLayout with context_save := true, context_loaded := true,
                               bitmapOn := true } (fun _ => 9) rfl (fun _ => rfl)).2 rfl

/-- Counterexample to claim C5: with the layout table empty (the state the
shared-page size check leaves behind), `svm_vpmu_initialise` returns the
error code -EINVAL (-22), not the non-error 0 that the mode-off case
returns, so the two cases are not the same non-error Disabled outcome. -/
theorem claim_C5_counterexample :
    svm_vpmu_initialise emptyLayout false true = (-22, none) ∧
    svm_vpmu_initialise f10hLayout true true = (0, none) ∧
    (-22 : Int) ≠ 0 := by
  refine ⟨rfl, rfl, by decide⟩

/-- Claim C5 as amended: mode off returns 0 with no context (the non-error
Disabled outcome); an empty layout table — including the one left by the
shared-page size check of `amd_vpmu_init` — makes every per-guest
initialisation return -EINVAL with no context; shadow-storage allocation
failure returns -ENOMEM with no context. -/
theorem claim_C5_amended :
    (∀ (L : Layout) (allocOk : Bool), svm_vpmu_initialise L true allocOk = (0, none)) ∧
    (∀ (L : Layout) (allocOk : Bool), L.counters = [] →
        svm_vpmu_initialise L false allocOk = (-22, none)) ∧
    (∀ L : Layout, L.counters ≠ [] → svm_vpmu_initialise L false false = (-12, none)) ∧
    amd_vpmu_init 0x15 4091 4096 =
      (-28, { counters := [], ctrls := [], k7_counters_mirrored := true }) ∧
    (∀ allocOk : Bool,
        svm_vpmu_initialise (amd_vpmu_init 0x15 4091 4096).2 false allocOk = (-22, none)) := by
  refine ⟨fun L allocOk => rfl, ?_, ?_, by decide, fun allocOk => rfl⟩
  · intro L allocOk h
    unfold svm_vpmu_initialise
    simp [h]
  · intro L h
    unfold svm_vpmu_initialise
    simp [h]

/-- Witness for the amended claim C5 at concrete inputs. -/
theorem claim_C5_amended_witness :
    svm_vpmu_initialise f10hLayout true true = (0, none) ∧
    svm_vpmu_initialise emptyLayout false false = (-22, none) ∧
    svm_vpmu_initialise f10hLayout false false = (-12, none) ∧
    svm_vpmu_initialise (amd_vpmu_init 0x15 4091 4096).2 false true = (-22, none) :=
  ⟨claim_C5_amended.1 f10hLayout true,
   claim_C5_amended.2.1 emptyLayout false rfl,
   claim_C5_amended.2.2.1 f10hLayout (by decide),
   claim_C5_amended.2.2.2.2 true⟩

/-- Counterexample to claim C10: a control-type address outside the active
bank (the family-15h EVNTSEL0 address under the family-10h layout, no
aliasing) written with the enable bit while `RUNNING` is unset and ownership
acquisition is denied: the handler returns 1 and touches no shadow, but —
contrary to the claim — performs no hardware write-through at all. -/
theorem claim_C10_counterexample :
    findSlot f10hLayout.ctrls f10hLayout.counters MSR_AMD_FAM15H_EVNTSEL0 = none ∧
    f10hLayout.k7_counters_mirrored = false ∧
    (amd_vpmu_do_wrmsr f10hLayout false (initVPMU f10hLayout)
        MSR_AMD_FAM15H_EVNTSEL0 (2 ^ 22) false).ret = 1 ∧
    (amd_vpmu_do_wrmsr f10hLayout false (initVPMU f10hLayout)
        MSR_AMD_FAM15H_EVNTSEL0 (2 ^ 22) false).st = initVPMU f10hLayout ∧
    (amd_vpmu_do_wrmsr f10hLayout false (initVPMU f10hLayout)
        MSR_AMD_FAM15H_EVNTSEL0 (2 ^ 22) false).hwWrites = [] := by
  decide

/-- Claim C10 as amended: provided the call does not take the
ownership-denied early return, a trapped write whose (possibly
alias-redirected) address matches no bank entry still returns 1, still
issues the raw hardware write to the original address as its final `wrmsrl`,
and leaves both shadow arrays unchanged. -/
theorem claim_C10_amended (L : Layout) (hvm : Bool) (s : VPMU) (msr v : Nat) (acqOk : Bool)
    (hmiss : findSlot L.ctrls L.counters
        (if L.k7_counters_mirrored ∧ MSR_K7_EVNTSEL0 ≤ msr ∧ msr ≤ MSR_K7_PERFCTR3
         then get_fam15h_addr msr else msr) = none)
    (hnd : ((isCtrlMsr msr && is_pmu_enabled (guest_mode_adjust hvm msr v) && !s.running) &&
            !acqOk) = false) :
    (amd_vpmu_do_wrmsr L hvm s msr v acqOk).ret = 1 ∧
    (amd_vpmu_do_wrmsr L hvm s msr v acqOk).st.counter_regs = s.counter_regs ∧
    (amd_vpmu_do_wrmsr L hvm s msr v acqOk).st.ctrl_regs = s.ctrl_regs ∧
    ∃ pre, (amd_vpmu_do_wrmsr L hvm s msr v acqOk).hwWrites =
      pre ++ [(msr, guest_mode_adjust hvm msr v)] := by
  unfold amd_vpmu_do_wrmsr
  simp only [hnd, Bool.false_eq_true, if_false, context_update, hmiss]
  split_ifs <;>
    simp_all [amd_vpmu_set_msr_bitmap, amd_vpmu_unset_msr_bitmap]

/-- Witness for the amended claim C10 at a concrete input. -/
theorem claim_C10_amended_witness :
    (amd_vpmu_do_wrmsr f10hLayout false
        { initVPMU f10hLayout with running := true, context_loaded := true }
        MSR_AMD_FAM15H_EVNTSEL0 (2 ^ 22) false).ret = 1 ∧
    (amd_vpmu_do_wrmsr f10hLayout false
        { initVPMU f10hLayout with running := true, context_loaded := true }
        MSR_AMD_FAM15H_EVNTSEL0 (2 ^ 22) false).st.counter_regs =
      ({ initVPMU f10hLayout with running := true, context_loaded := true } : VPMU).counter_regs ∧
    (amd_vpmu_do_wrmsr f10hLayout false
        { initVPMU f10hLayout with running := true, context_loaded := true }
        MSR_AMD_FAM15H_EVNTSEL0 (2 ^ 22) false).st.ctrl_regs =
      ({ initVPMU f10hLayout with running := true, context_loaded := true } : VPMU).ctrl_regs ∧
    ∃ pre, (amd_vpmu_do_wrmsr f10hLayout false
        { initVPMU f10hLayout with running := true, context_loaded := true }
        MSR_AMD_FAM15H_EVNTSEL0 (2 ^ 22) false).hwWrites =
      pre ++ [(MSR_AMD_FAM15H_EVNTSEL0,
               guest_mode_adjust false MSR_AMD_FAM15H_EVNTSEL0 (2 ^ 22))] :=
  claim_C10_amended f10hLayout false
    { initVPMU f10hLayout with running := true, context_loaded := true }
    MSR_AMD_FAM15H_EVNTSEL0 (2 ^ 22) false (by decide) (by decide)

/-- Counterexample to claim C4: under the family-0x15 layout, a write to
the legacy alias of counter 2's control register does update shadow control
index 2 (value with the guest-only bit forced), but the hardware
write-through is issued to the original legacy address 0xc0010002, not to
the redirected extended-bank address 0xc0010204 as the claim states. -/
theorem claim_C4_counterexample :
    (amd_vpmu_do_wrmsr f15hLayout true
        { initVPMU f15hLayout with running := true, tokenHeld := true, context_loaded := true }
        MSR_K7_EVNTSEL2 (2 ^ 22) true).st.ctrl_regs =
      [0, 0, 2 ^ 40 + 2 ^ 22, 0, 0, 0] ∧
    (amd_vpmu_do_wrmsr f15hLayout true
        { initVPMU f15hLayout with running := true, tokenHeld := true, context_loaded := true }
        MSR_K7_EVNTSEL2 (2 ^ 22) true).hwWrites =
      [(MSR_K7_EVNTSEL2, 2 ^ 40 + 2 ^ 22)] ∧
    MSR_K7_EVNTSEL2 ≠ MSR_AMD_FAM15H_EVNTSEL2 := by
  decide

/-- Claim C4 as amended: under the family-0x15 layout a trapped write
through the legacy alias of counter 2's control register updates shadow
control index 2 (the extended-bank index paired with the alias) and leaves
the counter shadow alone, but the hardware write-through is issued to the
original legacy address — redirection applies only to the shadow update. -/
theorem claim_C4_amended (hvm : Bool) (s : VPMU) (v : Nat) (acqOk : Bool)
    (hrun : s.running = true) (hen : is_pmu_enabled v = true) :
    (amd_vpmu_do_wrmsr f15hLayout hvm s MSR_K7_EVNTSEL2 v acqOk).st.ctrl_regs =
      s.ctrl_regs.set 2 (guest_mode_adjust hvm MSR_K7_EVNTSEL2 v) ∧
    (amd_vpmu_do_wrmsr f15hLayout hvm s MSR_K7_EVNTSEL2 v acqOk).st.counter_regs =
      s.counter_regs ∧
    ∃ pre, (amd_vpmu_do_wrmsr f15hLayout hvm s MSR_K7_EVNTSEL2 v acqOk).hwWrites =
      pre ++ [(MSR_K7_EVNTSEL2, guest_mode_adjust hvm MSR_K7_EVNTSEL2 v)] := by
  have hcu : ∀ (w : Nat) (cr er : List Nat),
      context_update f15hLayout MSR_K7_EVNTSEL2 w cr er = (cr, er.set 2 w) :=
    fun w cr er => rfl
  have hctrlb : isCtrlMsr MSR_K7_EVNTSEL2 = true := by decide
  unfold amd_vpmu_do_wrmsr
  simp only [hctrlb, is_pmu_enabled_guest_mode_adjust, hen, hrun, hcu, Bool.not_true,
    Bool.and_false, Bool.false_and, Bool.true_and, Bool.false_or, Bool.not_false,
    Bool.false_eq_true, if_false]
  by_cases hl : (!s.context_loaded || s.frozen) = true <;>
    simp [hl, hcu]

/-- Witness for the amended claim C4 at a concrete input. -/
theorem claim_C4_amended_witness :
    (amd_vpmu_do_wrmsr f15hLayout true
        { initVPMU f15hLayout with running := true, context_loaded := true }
        MSR_K7_EVNTSEL2 (2 ^ 22) true).st.ctrl_regs =
      ({ initVPMU f15hLayout with running := true, context_loaded := true } : VPMU).ctrl_regs.set 2
        (guest_mode_adjust true MSR_K7_EVNTSEL2 (2 ^ 22)) ∧
    (amd_vpmu_do_wrmsr f15hLayout true
        { initVPMU f15hLayout with running := true, context_loaded := true }
        MSR_K7_EVNTSEL2 (2 ^ 22) true).st.counter_regs =
      ({ initVPMU f15hLayout with running := true, context_loaded := true } : VPMU).counter_regs ∧
    ∃ pre, (amd_vpmu_do_wrmsr f15hLayout true
        { initVPMU f15hLayout with running := true, context_loaded := true }
        MSR_K7_EVNTSEL2 (2 ^ 22) true).hwWrites =
      pre ++ [(MSR_K7_EVNTSEL2, guest_mode_adjust true MSR_K7_EVNTSEL2 (2 ^ 22))] :=
  claim_C4_amended true
    { initVPMU f15hLayout with running := true, context_loaded := true }
    (2 ^ 22) true rfl (by decide)

theorem applyWrites_append (hw : Nat → Nat) (l₁ l₂ : List (Nat × Nat)) :
    applyWrites hw (l₁ ++ l₂) = applyWrites (applyWrites hw l₁) l₂ := by
  induction l₁ generalizing hw with
  | nil => rfl
  | cons p rest ih =>
    cases p
    simp [applyWrites, ih]

theorem applyWrites_singleton (hw : Nat → Nat) (a d : Nat) :
    applyWrites hw [(a, d)] a = d := by
  simp [applyWrites]

/-- A write call that does not take the ownership-denied early return ends
with `CONTEXT_LOADED` set, `FROZEN` clear, and its final `wrmsrl` targeting
the trapped address with the (guest-mode-adjusted) value. -/
theorem wrmsr_completed (L : Layout) (hvm : Bool) (s : VPMU) (msr v : Nat) (acqOk : Bool)
    (h : ((isCtrlMsr msr && is_pmu_enabled (guest_mode_adjust hvm msr v) && !s.running) &&
          !acqOk) = false) :
    (amd_vpmu_do_wrmsr L hvm s msr v acqOk).st.context_loaded = true ∧
    (amd_vpmu_do_wrmsr L hvm s msr v acqOk).st.frozen = false ∧
    ∃ pre, (amd_vpmu_do_wrmsr L hvm s msr v acqOk).hwWrites =
      pre ++ [(msr, guest_mode_adjust hvm msr v)] := by
  unfold amd_vpmu_do_wrmsr
  simp only [h, Bool.false_eq_true, if_false]
  split_ifs <;> simp_all [amd_vpmu_set_msr_bitmap, amd_vpmu_unset_msr_bitmap]

/-- Claim C8: for an HVM vcpu, a trapped control-register write forces the
guest-only mode bit into the value, and reading the same register back
through `amd_vpmu_do_rdmsr` with no intervening operation yields exactly
the written value with the guest-only bit set — whether or not the guest's
value had that bit. -/
theorem claim_C8 (L : Layout) (s : VPMU) (hw : Nat → Nat) (msr v : Nat) (acqOk : Bool)
    (hctrl : get_pmu_reg_type msr = some MSRType.ctrl)
    (hok : s.running = true ∨ acqOk = true) :
    guest_mode_adjust true msr v = v ||| 2 ^ MSR_F10H_EVNTSEL_GO_SHIFT ∧
    (amd_vpmu_do_rdmsr L (amd_vpmu_do_wrmsr L true s msr v acqOk).st
        (applyWrites hw (amd_vpmu_do_wrmsr L true s msr v acqOk).hwWrites) msr).value =
      v ||| 2 ^ MSR_F10H_EVNTSEL_GO_SHIFT ∧
    (v ||| 2 ^ MSR_F10H_EVNTSEL_GO_SHIFT).testBit MSR_F10H_EVNTSEL_GO_SHIFT = true ∧
    (amd_vpmu_do_rdmsr L (amd_vpmu_do_wrmsr L true s msr v acqOk).st
        (applyWrites hw (amd_vpmu_do_wrmsr L true s msr v acqOk).hwWrites) msr).hwWrites
      = [] := by
  have hadj := guest_mode_adjust_hvm_ctrl msr v hctrl
  have hne : ((isCtrlMsr msr && is_pmu_enabled (guest_mode_adjust true msr v) && !s.running) &&
      !acqOk) = false := by
    rcases hok with h | h
    · simp [h]
    · simp [h]
  obtain ⟨hld, hfr, pre, hwr⟩ := wrmsr_completed L true s msr v acqOk hne
  refine ⟨hadj, ?_, ?_, ?_⟩
  · unfold amd_vpmu_do_rdmsr
    simp [hld, hfr, hwr, applyWrites_append, applyWrites, hadj]
  · rw [Nat.testBit_lor, Nat.testBit_two_pow_self]
    simp
  · unfold amd_vpmu_do_rdmsr
    simp [hld, hfr]

/-- Witness for claim C8 at a concrete input: guest writes the enable bit
only, reads back enable plus the forced guest-only bit. -/
theorem claim_C8_witness :
    guest_mode_adjust true MSR_K7_EVNTSEL0 (2 ^ 22) =
      2 ^ 22 ||| 2 ^ MSR_F10H_EVNTSEL_GO_SHIFT ∧
    (amd_vpmu_do_rdmsr f10hLayout
        (amd_vpmu_do_wrmsr f10hLayout true (initVPMU f10hLayout)
          MSR_K7_EVNTSEL0 (2 ^ 22) true).st
        (applyWrites (fun _ => 0)
          (amd_vpmu_do_wrmsr f10hLayout true (initVPMU f10hLayout)
            MSR_K7_EVNTSEL0 (2 ^ 22) true).hwWrites)
        MSR_K7_EVNTSEL0).value = 2 ^ 22 ||| 2 ^ MSR_F10H_EVNTSEL_GO_SHIFT ∧
    ((2 ^ 22 : Nat) ||| 2 ^ MSR_F10H_EVNTSEL_GO_SHIFT).testBit
      MSR_F10H_EVNTSEL_GO_SHIFT = true ∧
    (amd_vpmu_do_rdmsr f10hLayout
        (amd_vpmu_do_wrmsr f10hLayout true (initVPMU f10hLayout)
          MSR_K7_EVNTSEL0 (2 ^ 22) true).st
        (applyWrites (fun _ => 0)
          (amd_vpmu_do_wrmsr f10hLayout true (initVPMU f10hLayout)
            MSR_K7_EVNTSEL0 (2 ^ 22) true).hwWrites)
        MSR_K7_EVNTSEL0).hwWrites = [] :=
  claim_C8 f10hLayout (initVPMU f10hLayout) (fun _ => 0) MSR_K7_EVNTSEL0 (2 ^ 22) true
    (by decide) (Or.inr rfl)

/-- If the `RUNNING` flag implies token ownership before a trapped write,
it still does after: the only rise of `RUNNING` also records a successful
acquisition, and the only fall also releases. -/
theorem wrmsr_token_inv (L : Layout) (hvm : Bool) (s : VPMU) (msr v : Nat) (acqOk : Bool)
    (h : s.running = true → s.tokenHeld = true) :
    (amd_vpmu_do_wrmsr L hvm s msr v acqOk).st.running = true →
    (amd_vpmu_do_wrmsr L hvm s msr v acqOk).st.tokenHeld = true := by
  obtain ⟨ca, cl, cs, ru, fz, bm, cr, er, tk⟩ := s
  by_cases hc1 : isCtrlMsr msr = true <;>
  by_cases hc2 : is_pmu_enabled (guest_mode_adjust hvm msr v) = true <;>
    cases ru <;> cases tk <;> cases acqOk <;> cases hvm <;> cases bm <;>
    simp_all [amd_vpmu_do_wrmsr, amd_vpmu_set_msr_bitmap, amd_vpmu_unset_msr_bitmap,
      apply_ite]

/-- The MSR-bitmap sentinel stays off across a trapped write: the install
call is guarded by the sentinel already being on. -/
theorem wrmsr_bitmap_inv (L : Layout) (hvm : Bool) (s : VPMU) (msr v : Nat) (acqOk : Bool)
    (h : s.bitmapOn = false) :
    (amd_vpmu_do_wrmsr L hvm s msr v acqOk).st.bitmapOn = false := by
  obtain ⟨ca, cl, cs, ru, fz, bm, cr, er, tk⟩ := s
  subst h
  by_cases hc1 : isCtrlMsr msr = true <;>
  by_cases hc2 : is_pmu_enabled (guest_mode_adjust hvm msr v) = true <;>
    cases ru <;> cases acqOk <;> cases hvm <;>
    simp_all [amd_vpmu_do_wrmsr, amd_vpmu_set_msr_bitmap, amd_vpmu_unset_msr_bitmap,
      apply_ite]

theorem rdmsr_flags (L : Layout) (s : VPMU) (hw : Nat → Nat) (msr : Nat) :
    (amd_vpmu_do_rdmsr L s hw msr).st.running = s.running ∧
    (amd_vpmu_do_rdmsr L s hw msr).st.tokenHeld = s.tokenHeld ∧
    (amd_vpmu_do_rdmsr L s hw msr).st.bitmapOn = s.bitmapOn := by
  by_cases h : (!s.context_loaded || s.frozen) = true <;>
    simp [amd_vpmu_do_rdmsr, h]

theorem save_flags (L : Layout) (hvm : Bool) (s : VPMU) (hw : Nat → Nat) :
    (amd_vpmu_save L hvm s hw).st.running = s.running ∧
    (amd_vpmu_save L hvm s hw).st.tokenHeld = s.tokenHeld ∧
    ((amd_vpmu_save L hvm s hw).st.bitmapOn = true → s.bitmapOn = true) := by
  by_cases h1 : s.context_save = true <;>
  by_cases h2 : s.context_loaded = true <;>
    simp_all [amd_vpmu_save, amd_vpmu_unset_msr_bitmap] <;>
    (try (split_ifs <;> simp_all))

theorem load_flags (L : Layout) (s : VPMU) :
    (amd_vpmu_load L s).st.running = s.running ∧
    (amd_vpmu_load L s).st.tokenHeld = s.tokenHeld ∧
    (amd_vpmu_load L s).st.bitmapOn = s.bitmapOn := by
  by_cases h : s.context_loaded = true <;>
    simp [amd_vpmu_load, h]

theorem destroy_flags (L : Layout) (hvm : Bool) (s : VPMU) :
    (amd_vpmu_destroy L hvm s).st.running = false ∧
    ((amd_vpmu_destroy L hvm s).st.bitmapOn = true → s.bitmapOn = true) := by
  obtain ⟨ca, cl, cs, ru, fz, bm, cr, er, tk⟩ := s
  cases hvm <;> cases bm <;> cases ru <;>
    simp [amd_vpmu_destroy, amd_vpmu_unset_msr_bitmap]

theorem save_bitmap_inv (L : Layout) (hvm : Bool) (s : VPMU) (hw : Nat → Nat)
    (h : s.bitmapOn = false) :
    (amd_vpmu_save L hvm s hw).st.bitmapOn = false := by
  by_cases h1 : s.context_save = true <;>
  by_cases h2 : s.context_loaded = true <;>
    simp_all [amd_vpmu_save, amd_vpmu_unset_msr_bitmap]

theorem destroy_bitmap_inv (L : Layout) (hvm : Bool) (s : VPMU)
    (h : s.bitmapOn = false) :
    (amd_vpmu_destroy L hvm s).st.bitmapOn = false := by
  obtain ⟨ca, cl, cs, ru, fz, bm, cr, er, tk⟩ := s
  cases hvm <;> cases ru <;>
    simp_all [amd_vpmu_destroy, amd_vpmu_unset_msr_bitmap]

/-- On every reachable state, `RUNNING` implies the backend holds the
ownership token. -/
theorem reachable_token_inv (L : Layout) (hvm : Bool) (s : VPMU)
    (hr : Reachable L hvm s) : s.running = true → s.tokenHeld = true := by
  induction hr with
  | refl => simp [initVPMU]
  | tail _ hstep ih =>
    cases hstep with
    | wrmsr msr v acqOk => exact wrmsr_token_inv L hvm _ msr v acqOk ih
    | rdmsr hw msr =>
      obtain ⟨h1, h2, _⟩ := rdmsr_flags L _ hw msr
      rw [h1, h2]
      exact ih
    | save hw =>
      obtain ⟨h1, h2, _⟩ := save_flags L hvm _ hw
      rw [h1, h2]
      exact ih
    | load =>
      obtain ⟨h1, h2, _⟩ := load_flags L _
      rw [h1, h2]
      exact ih
    | destroy =>
      rw [(destroy_flags L hvm _).1]
      intro h
      cases h

/-- On every reachable state the MSR-bitmap sentinel is off: no operation
of this file can ever turn it on, since the only install site is guarded by
the sentinel already being on. -/
theorem reachable_bitmap_off (L : Layout) (hvm : Bool) (s : VPMU)
    (hr : Reachable L hvm s) : s.bitmapOn = false := by
  induction hr with
  | refl => rfl
  | tail _ hstep ih =>
    cases hstep with
    | wrmsr msr v acqOk => exact wrmsr_bitmap_inv L hvm _ msr v acqOk ih
    | rdmsr hw msr =>
      rw [(rdmsr_flags L _ hw msr).2.2]
      exact ih
    | save hw => exact save_bitmap_inv L hvm _ hw ih
    | load =>
      rw [(load_flags L _).2.2]
      exact ih
    | destroy => exact destroy_bitmap_inv L hvm _ ih

/-- A trapped write that raises `RUNNING` from unset to set did so through a
successful `acquire_pmu_ownership` in that same call. -/
theorem wrmsr_rise_acquired (L : Layout) (hvm : Bool) (s : VPMU) (msr v : Nat) (acqOk : Bool)
    (h : s.running = false) :
    (amd_vpmu_do_wrmsr L hvm s msr v acqOk).st.running = true →
    (amd_vpmu_do_wrmsr L hvm s msr v acqOk).acquired = true := by
  obtain ⟨ca, cl, cs, ru, fz, bm, cr, er, tk⟩ := s
  by_cases hc1 : isCtrlMsr msr = true <;>
  by_cases hc2 : is_pmu_enabled (guest_mode_adjust hvm msr v) = true <;>
    cases ru <;> cases acqOk <;> cases hvm <;> cases bm <;>
    simp_all [amd_vpmu_do_wrmsr, amd_vpmu_set_msr_bitmap, amd_vpmu_unset_msr_bitmap,
      apply_ite]

/-- A trapped write that drops `RUNNING` from set to unset called
`release_pmu_ownship` in that same call. -/
theorem wrmsr_fall_released (L : Layout) (hvm : Bool) (s : VPMU) (msr v : Nat) (acqOk : Bool)
    (h : s.running = true) :
    (amd_vpmu_do_wrmsr L hvm s msr v acqOk).st.running = false →
    (amd_vpmu_do_wrmsr L hvm s msr v acqOk).released = true := by
  obtain ⟨ca, cl, cs, ru, fz, bm, cr, er, tk⟩ := s
  by_cases hc1 : isCtrlMsr msr = true <;>
  by_cases hc2 : is_pmu_enabled (guest_mode_adjust hvm msr v) = true <;>
    cases ru <;> cases acqOk <;> cases hvm <;> cases bm <;>
    simp_all [amd_vpmu_do_wrmsr, amd_vpmu_set_msr_bitmap, amd_vpmu_unset_msr_bitmap,
      apply_ite]

/-- `amd_vpmu_destroy` on a context with `RUNNING` set calls
`release_pmu_ownship`. -/
theorem destroy_released_of_running (L : Layout) (hvm : Bool) (s : VPMU)
    (h : s.running = true) :
    (amd_vpmu_destroy L hvm s).released = true := by
  obtain ⟨ca, cl, cs, ru, fz, bm, cr, er, tk⟩ := s
  cases hvm <;> cases bm <;>
    simp_all [amd_vpmu_destroy, amd_vpmu_unset_msr_bitmap]

/-- Claim C1: in `amd_vpmu_do_wrmsr` the `RUNNING` flag rises only in a
call whose `acquire_pmu_ownership(PMU_OWNER_HVM)` succeeded, and falls only
in a call that released the token; `amd_vpmu_destroy` releases the token
whenever `RUNNING` is still set; and consequently on every reachable state
`RUNNING` implies that this backend holds the ownership token. -/
theorem claim_C1 :
    (∀ (L : Layout) (hvm : Bool) (s : VPMU) (msr v : Nat) (acqOk : Bool),
        s.running = false →
        (amd_vpmu_do_wrmsr L hvm s msr v acqOk).st.running = true →
        (amd_vpmu_do_wrmsr L hvm s msr v acqOk).acquired = true) ∧
    (∀ (L : Layout) (hvm : Bool) (s : VPMU) (msr v : Nat) (acqOk : Bool),
        s.running = true →
        (amd_vpmu_do_wrmsr L hvm s msr v acqOk).st.running = false →
        (amd_vpmu_do_wrmsr L hvm s msr v acqOk).released = true) ∧
    (∀ (L : Layout) (hvm : Bool) (s : VPMU),
        s.running = true → (amd_vpmu_destroy L hvm s).released = true) ∧
    (∀ (L : Layout) (hvm : Bool) (s : VPMU),
        Reachable L hvm s → s.running = true → s.tokenHeld = true) :=
  ⟨wrmsr_rise_acquired, wrmsr_fall_released, destroy_released_of_running,
   reachable_token_inv⟩

/-- Witness for claim C1 at concrete inputs: a first-enable write acquires;
a disable write from a running state releases; destroy on a running state
releases; and the state reached by the first-enable write holds the
token. -/
theorem claim_C1_witness :
    (amd_vpmu_do_wrmsr f10hLayout true (initVPMU f10hLayout)
        MSR_K7_EVNTSEL0 (2 ^ 22) true).acquired = true ∧
    (amd_vpmu_do_wrmsr f10hLayout true
        { initVPMU f10hLayout with running := true, tokenHeld := true }
        MSR_K7_EVNTSEL0 0 true).released = true ∧
    (amd_vpmu_destroy f10hLayout true
        { initVPMU f10hLayout with running := true, tokenHeld := true }).released = true ∧
    (amd_vpmu_do_wrmsr f10hLayout true (initVPMU f10hLayout)
        MSR_K7_EVNTSEL0 (2 ^ 22) true).st.tokenHeld = true :=
  ⟨claim_C1.1 f10hLayout true (initVPMU f10hLayout) MSR_K7_EVNTSEL0 (2 ^ 22) true
      rfl (by decide),
   claim_C1.2.1 f10hLayout true
      { initVPMU f10hLayout with running := true, tokenHeld := true }
      MSR_K7_EVNTSEL0 0 true rfl (by decide),
   claim_C1.2.2.1 f10hLayout true
      { initVPMU f10hLayout with running := true, tokenHeld := true } rfl,
   claim_C1.2.2.2 f10hLayout true _
      (Relation.ReflTransGen.single
        (Step.wrmsr (initVPMU f10hLayout) MSR_K7_EVNTSEL0 (2 ^ 22) true))
      (by decide)⟩

/-- Claim C2, evaluated on the failing input: on a fresh HVM context (the
bitmap sentinel off, exactly as `svm_vpmu_initialise` leaves it) a
first-enable control write whose ownership acquisition succeeds sets
`RUNNING` but does not install the fast-path intercept — no
`svm_intercept_msr` call is made and the sentinel stays off — because the
code guards the `amd_vpmu_set_msr_bitmap` call with `is_msr_bitmap_on`
instead of its negation; indeed on every reachable state the sentinel is
off, so the fast path is never installed at all. -/
theorem claim_C2_code_eval :
    (amd_vpmu_do_wrmsr f10hLayout true (initVPMU f10hLayout)
        MSR_K7_EVNTSEL0 (2 ^ 22) true).acquired = true ∧
    (amd_vpmu_do_wrmsr f10hLayout true (initVPMU f10hLayout)
        MSR_K7_EVNTSEL0 (2 ^ 22) true).st.running = true ∧
    (amd_vpmu_do_wrmsr f10hLayout true (initVPMU f10hLayout)
        MSR_K7_EVNTSEL0 (2 ^ 22) true).st.bitmapOn = false ∧
    (amd_vpmu_do_wrmsr f10hLayout true (initVPMU f10hLayout)
        MSR_K7_EVNTSEL0 (2 ^ 22) true).icptWrites = [] ∧
    (∀ (L : Layout) (hvm : Bool) (s : VPMU), Reachable L hvm s → s.bitmapOn = false) :=
  ⟨by decide, by decide, by decide, by decide, reachable_bitmap_off⟩

/-- Witness for the reachability conjunct of claim C2. -/
theorem claim_C2_code_eval_witness : (initVPMU f10hLayout).bitmapOn = false :=
  claim_C2_code_eval.2.2.2.2 f10hLayout true (initVPMU f10hLayout)
    Relation.ReflTransGen.refl

end SvmVpmu
